import Mathlib

/-!
Shallow embedding of the device-code-flow web application
(`src/web_app.py`, with `src/cli.py` sharing `get_device_code` /
`poll_for_token`).  Time is modelled as `Nat` (the value of
`time.time()`), HTTP interactions as explicit data handed to the
handlers, and the pickled session file as an association list keyed by
session id.
-/

namespace DeviceFlow

/-- A stored session record, as written by `api_device_code`
(`web_app.py` lines 153-158): the dict with keys client_id, device_code,
interval and expires_at. -/
structure SessionData where
  client_id : String
  device_code : String
  interval : Nat
  expires_at : Nat
deriving DecidableEq, Repr

/-- The session store: contents of `active_sessions.pkl`, a dict keyed by
session id (`load_sessions` / `save_sessions`, `web_app.py` lines 50-58). -/
def Store := List (String × SessionData)

instance : DecidableEq Store := by
  unfold Store
  infer_instance

/-- Dict membership and indexing: the lookup of session_id in
active_sessions. -/
def findSession : Store → String → Option SessionData
  | [], _ => none
  | (k, v) :: rest, sid => if k = sid then some v else findSession rest sid

/-- Dict deletion, `del active_sessions[session_id]` (the handler only
deletes keys it has just looked up, so removing every binding of the key
is faithful to dict semantics). -/
def delSession : Store → String → Store
  | [], _ => []
  | (k, v) :: rest, sid =>
    if k = sid then delSession rest sid else (k, v) :: delSession rest sid

/-- Dict insertion of a fresh session id. -/
def addSession (store : Store) (sid : String) (s : SessionData) : Store :=
  (sid, s) :: store

/-- The JSON object of a token-endpoint response body, with the fields the
program reads (`error`, `access_token`, `refresh_token`, `id_token`,
`expires_in`) plus a count of any further fields, which only matters for
Python dict truthiness (`if token:`). -/
structure TokenJson where
  error : Option String
  access_token : Option String
  refresh_token : Option String
  id_token : Option String
  expires_in : Option Nat
  otherFields : Nat
deriving DecidableEq, Repr

/-- Python truthiness of the parsed dict: falsy iff it has no fields. -/
def TokenJson.isEmpty (t : TokenJson) : Bool :=
  t.error.isNone && t.access_token.isNone && t.refresh_token.isNone &&
    t.id_token.isNone && t.expires_in.isNone && (t.otherFields == 0)

/-- What `requests.post(TOKEN_URL, ...)` yields for one attempt: either a
transport-level exception, or a response with a status code, raw text, and
a body that parses to JSON (`some`) or makes `resp.json()` raise (`none`). -/
inductive TokenHttp where
  | transportFailure
  | response (status_code : Nat) (text : String) (jsonBody : Option TokenJson)
deriving DecidableEq, Repr

/-- The exceptions `poll_for_token` (web version) can propagate. -/
inductive PollExn where
  | transport
  | jsonParse
  | oauthError (body : TokenJson)
  | unexpectedError (text : String)
deriving DecidableEq, Repr

/-- Result of one call of `poll_for_token` (`web_app.py` lines 93-112):
the parsed token dict on HTTP 200, `None` on a recognized pending 400, or
a raised exception. -/
inductive PollOutcome where
  | ok (token : TokenJson)
  | stillWaiting
  | exn (e : PollExn)
deriving DecidableEq, Repr

/-- Function `poll_for_token` (`web_app.py` lines 93-112), single redemption
attempt: status 200 returns `resp.json()`; status 400 inspects
`resp.json().get("error")` and returns `None` for `authorization_pending`
or `slow_down`, otherwise raises `Exception("OAuth error: ...")`; any
other status raises `Exception("Unexpected error: " + resp.text)`; a
failed `resp.json()` parse raises as well. -/
def poll_for_token (http : TokenHttp) : PollOutcome :=
  match http with
  | .transportFailure => .exn .transport
  | .response status_code text jsonBody =>
    if status_code = 200 then
      match jsonBody with
      | some t => .ok t
      | none => .exn .jsonParse
    else if status_code = 400 then
      match jsonBody with
      | some t =>
        if t.error = some "authorization_pending" ∨ t.error = some "slow_down" then
          .stillWaiting
        else
          .exn (.oauthError t)
      | none => .exn .jsonParse
    else
      .exn (.unexpectedError text)

/-- The JSON bodies `api_poll_token` (`web_app.py` lines 170-209) can
answer with, tagged with their HTTP status. -/
inductive ApiPollResult where
  | invalidSession                       -- HTTP 404, body error = Invalid session ID
  | sessionExpired                       -- HTTP 408, body error = Session expired
  | tokenResponse (access_token : String) (refresh_token : Option String)
      (id_token : Option String) (expires_in : Option Nat)   -- 200 token body
  | pending                              -- HTTP 200, body status = pending
  | serverError                          -- HTTP 500, body error = str(e)
deriving DecidableEq, Repr

/-- Handler `api_poll_token` (`web_app.py` lines 170-209).  Inputs: the store as
loaded from the session file, the polled session id, the current
`time.time()`, and what the token endpoint would answer if contacted.
Outputs: the response, the store as left on disk afterwards, and whether
the provider was actually contacted. -/
def api_poll_token (store : Store) (session_id : String) (now : Nat)
    (http : TokenHttp) : ApiPollResult × Store × Bool :=
  match findSession store session_id with
  | none => (.invalidSession, store, false)
  | some session_data =>
    if now > session_data.expires_at then
      (.sessionExpired, delSession store session_id, false)
    else
      match poll_for_token http with
      | .ok token =>
        if token.isEmpty then
          -- `if token:` is false for an empty dict: falls to the pending branch
          (.pending, store, true)
        else
          match token.access_token with
          | some at_tok =>
            (.tokenResponse at_tok token.refresh_token token.id_token token.expires_in,
              delSession store session_id, true)
          | none =>
            -- indexing token at access_token raises KeyError, caught below
            (.serverError, delSession store session_id, true)
      | .stillWaiting => (.pending, store, true)
      | .exn _ => (.serverError, delSession store session_id, true)

/-- A response reaching a terminal flow state (everything except the
pending answer and the unknown-session 404). -/
def ApiPollResult.isTerminal : ApiPollResult → Bool
  | .sessionExpired => true
  | .tokenResponse _ _ _ _ => true
  | .serverError => true
  | .invalidSession => false
  | .pending => false

/-! ### Device-code request (`get_device_code`, `web_app.py` 82-91 /
`cli.py` 104-113) -/

/-- The JSON object of a device-code-endpoint response, with the fields
the program reads (`device_code`, `user_code`, `verification_uri`,
`message` required by indexing; `interval`, `expires_in` via `.get`). -/
structure DeviceJson where
  device_code : String
  user_code : String
  verification_uri : String
  message : String
  interval : Option Nat
  expires_in : Option Nat
deriving DecidableEq, Repr

/-- What `requests.post(DEVICE_CODE_URL, ...)` yields: a transport
exception, or a response with a status code, raw text, and a JSON body
(`none` when `resp.json()` would raise). -/
inductive DeviceHttp where
  | transportFailure
  | response (status_code : Nat) (text : String) (jsonBody : Option DeviceJson)
deriving DecidableEq, Repr

/-- The exceptions `get_device_code` can propagate: the transport error,
the HTTPError raised by `resp.raise_for_status()` (carrying
the response status and raw text), or the `resp.json()` parse error. -/
inductive DeviceExn where
  | transport
  | httpError (status_code : Nat) (text : String)
  | jsonParse
deriving DecidableEq, Repr

/-- Function `get_device_code` (`web_app.py` lines 82-91): POSTs to the
device-code endpoint, calls `resp.raise_for_status()` — which raises
exactly when `400 ≤ status_code < 600` — and returns `resp.json()`. -/
def get_device_code (http : DeviceHttp) : Except DeviceExn DeviceJson :=
  match http with
  | .transportFailure => .error .transport
  | .response status_code text jsonBody =>
    if 400 ≤ status_code ∧ status_code < 600 then
      .error (.httpError status_code text)
    else
      match jsonBody with
      | some d => .ok d
      | none => .error .jsonParse

/-! ### Flow start (`api_device_code`, `web_app.py` 137-168) -/

/-- The JSON body of a start-flow request: reading keys client_id and
scope (the latter with a default) via dict get. -/
structure StartRequest where
  client_id : Option String
  scope : Option String
deriving DecidableEq, Repr

/-- The responses of `api_device_code`. -/
inductive ApiStartResult where
  | clientIdRequired                     -- HTTP 400, body error = Client ID is required
  | started (session_id : String) (verification_uri : String)
      (user_code : String) (message : String)    -- 200 display payload
  | serverError                          -- HTTP 500, body error = str(e)
deriving DecidableEq, Repr

/-- Python truthiness of the client_id value: not client_id is true
when the key is absent or the string is empty. -/
def clientIdFalsy : Option String → Bool
  | none => true
  | some s => s = ""

/-- Handler `api_device_code` (`web_app.py` lines 137-168).  Inputs: the request
body, the store as loaded from the session file, the current
`time.time()`, the uuid the handler would generate, and what the
device-code endpoint would answer if contacted.  Outputs: the response,
the store afterwards, and whether the provider was contacted. -/
def api_device_code (req : StartRequest) (store : Store) (now : Nat)
    (uuid : String) (http : DeviceHttp) : ApiStartResult × Store × Bool :=
  if clientIdFalsy req.client_id then
    (.clientIdRequired, store, false)
  else
    match get_device_code http with
    | .error _ => (.serverError, store, true)
    | .ok device =>
      let s : SessionData :=
        { client_id := req.client_id.getD ""
          device_code := device.device_code
          interval := device.interval.getD 5
          expires_at := now + device.expires_in.getD 900 }
      (.started uuid device.verification_uri device.user_code device.message,
        addSession store uuid s, true)

/-! ### Concurrent access to the pickled session file

Every mutation in `web_app.py` is the sequence `load_sessions()` (read
the whole file), an in-memory dict update, `save_sessions(...)` (rewrite
the whole file), with no lock anywhere (lines 50-58 and their callers).
We model two concurrent mutating requests as two threads, each performing
a `load` event and then a `save` event against the shared file; a
a
schedule is any interleaving of the event sequences of the two threads. -/

/-- A primitive event of thread 1 or thread 2 against the session file. -/
inductive FileEvent where
  | load1 | save1 | load2 | save2
deriving DecidableEq, Repr

/-- Shared file plus the in-memory copy of the dict in each thread
(`none` before its `load_sessions()` has run). -/
structure ConcState where
  file : Store
  mem1 : Option Store
  mem2 : Option Store

/-- One event: `load` copies the file into thread-local memory; `save`
applies the dict update of the thread to its copy and rewrites the file. -/
def stepEvent (f1 f2 : Store → Store) (st : ConcState) : FileEvent → ConcState
  | .load1 => { st with mem1 := some st.file }
  | .save1 =>
    match st.mem1 with
    | some m => { st with file := f1 m }
    | none => st
  | .load2 => { st with mem2 := some st.file }
  | .save2 =>
    match st.mem2 with
    | some m => { st with file := f2 m }
    | none => st

/-- Run a schedule of events from an initial file content. -/
def runSchedule (f1 f2 : Store → Store) (file : Store)
    (sched : List FileEvent) : Store :=
  (sched.foldl (stepEvent f1 f2) { file := file, mem1 := none, mem2 := none }).file

/-- All interleavings of two event sequences (the internal order of each
thread is preserved). -/
def interleavings : List FileEvent → List FileEvent → List (List FileEvent)
  | [], ys => [ys]
  | x :: xs, [] => [x :: xs]
  | x :: xs, y :: ys =>
    (interleavings xs (y :: ys)).map (x :: ·) ++
      (interleavings (x :: xs) ys).map (y :: ·)

/-- The schedules of two concurrent store mutations: interleavings of
`load1; save1` with `load2; save2`. -/
def mutationSchedules : List (List FileEvent) :=
  interleavings [.load1, .save1] [.load2, .save2]

/-! ### Helper lemmas -/

/-- The six interleavings of two load-then-save mutation threads. -/
theorem mutationSchedules_eq : mutationSchedules =
    [[.load1, .save1, .load2, .save2], [.load1, .load2, .save1, .save2],
     [.load1, .load2, .save2, .save1], [.load2, .load1, .save1, .save2],
     [.load2, .load1, .save2, .save1], [.load2, .save2, .load1, .save1]] := by
  simp [mutationSchedules, interleavings]

/-- Looking up a key just deleted from the store yields nothing. -/
theorem findSession_delSession (store : Store) (sid : String) :
    findSession (delSession store sid) sid = none := by
  induction store with
  | nil => rfl
  | cons kv rest ih =>
    obtain ⟨k, v⟩ := kv
    by_cases h : k = sid
    · simpa [delSession, h] using ih
    · simpa [delSession, findSession, h] using ih

/-- Deleting a key twice is the same as deleting it once. -/
theorem delSession_idem (store : Store) (sid : String) :
    delSession (delSession store sid) sid = delSession store sid := by
  induction store with
  | nil => rfl
  | cons kv rest ih =>
    obtain ⟨k, v⟩ := kv
    by_cases h : k = sid
    · simpa [delSession, h] using ih
    · simp [delSession, h, ih]

/-- The poll handler consults the token endpoint only through
`poll_for_token`, so responses with equal classification give equal
handler behaviour. -/
theorem api_poll_token_congr (store : Store) (sid : String) (now : Nat)
    (h1 h2 : TokenHttp) (h : poll_for_token h1 = poll_for_token h2) :
    api_poll_token store sid now h1 = api_poll_token store sid now h2 := by
  unfold api_poll_token
  rw [h]

/-- Whenever the poll handler answers with a terminal response, the store
it writes back is the one with the polled id deleted. -/
theorem api_poll_token_terminal_store (store : Store) (sid : String)
    (now : Nat) (http : TokenHttp)
    (h : ((api_poll_token store sid now http).1).isTerminal = true) :
    (api_poll_token store sid now http).2.1 = delSession store sid := by
  cases hf : findSession store sid with
  | none => simp [api_poll_token, hf, ApiPollResult.isTerminal] at h
  | some s =>
    by_cases hexp : now > s.expires_at
    · simp [api_poll_token, hf, hexp]
    · cases hp : poll_for_token http with
      | ok t =>
        by_cases he : t.isEmpty
        · simp [api_poll_token, hf, hexp, hp, he, ApiPollResult.isTerminal] at h
        · cases ha : t.access_token with
          | none => simp [api_poll_token, hf, hexp, hp, he, ha]
          | some a => simp [api_poll_token, hf, hexp, hp, he, ha]
      | stillWaiting =>
        simp [api_poll_token, hf, hexp, hp, ApiPollResult.isTerminal] at h
      | exn e => simp [api_poll_token, hf, hexp, hp]

/-! ### Claims -/

/-- Claim C1, counterexample to the claimed boundary behaviour: at the
exact boundary where the current time equals expires_at, the handler
(which tests strict `now > expires_at`, `web_app.py` line 180) does NOT
expire the session: with the provider answering 400
authorization_pending it reports pending, leaves the session in the
store, and does contact the provider — while the claim requires EXPIRED,
deletion and no provider contact whenever now ≥ expires_at. -/
theorem C1_boundary_counterexample :
    api_poll_token [("s", ⟨"cid", "dev", 5, 100⟩)] "s" 100
        (.response 400 "t" (some ⟨some "authorization_pending", none, none, none, none, 0⟩))
      = (.pending, [("s", ⟨"cid", "dev", 5, 100⟩)], true) := by
  decide

/-- Claim C1 as amended: for every stored session, polling when the
current time is STRICTLY greater than expires_at yields the expired
outcome, deletes the session from the store, and does not contact the
provider, regardless of what the provider would have returned. -/
theorem C1_strictly_expired (store : Store) (sid : String) (s : SessionData)
    (now : Nat) (http : TokenHttp)
    (hfind : findSession store sid = some s)
    (hexp : s.expires_at < now) :
    api_poll_token store sid now http = (.sessionExpired, delSession store sid, false) := by
  simp [api_poll_token, hfind, hexp]

/-- Claim C1 witness: the amended theorem applied one past the deadline. -/
theorem C1_strictly_expired_witness :
    api_poll_token [("s", ⟨"cid", "dev", 5, 100⟩)] "s" 101 .transportFailure
      = (.sessionExpired, delSession [("s", ⟨"cid", "dev", 5, 100⟩)] "s", false) :=
  C1_strictly_expired [("s", ⟨"cid", "dev", 5, 100⟩)] "s" ⟨"cid", "dev", 5, 100⟩
    101 .transportFailure (by decide) (by decide)

/-- Claim C2: whenever the poll handler reaches a terminal outcome
(success, expiry, or the error path covering denial and provider
errors), the session is removed from the store in the same step, so a
subsequent lookup of the session id in the store left behind returns
nothing. -/
theorem C2_terminal_removes_session (store : Store) (sid : String)
    (now : Nat) (http : TokenHttp)
    (hterm : ((api_poll_token store sid now http).1).isTerminal = true) :
    findSession (api_poll_token store sid now http).2.1 sid = none := by
  rw [api_poll_token_terminal_store store sid now http hterm]
  exact findSession_delSession store sid

/-- Claim C2 witness: an expired session is gone after its last poll. -/
theorem C2_terminal_removes_session_witness :
    findSession
        (api_poll_token [("s", ⟨"cid", "dev", 5, 100⟩)] "s" 200 .transportFailure).2.1 "s"
      = none :=
  C2_terminal_removes_session [("s", ⟨"cid", "dev", 5, 100⟩)] "s" 200
    .transportFailure (by decide)

/-- Claim C3: for every non-expired session, an HTTP 200 token-endpoint
response whose body carries an access_token yields the authorized
outcome with exactly that access_token (and the refresh_token, id_token
and expires_in of the payload untransformed), and the session is deleted
from the store. -/
theorem C3_success_token_passthrough (store : Store) (sid : String)
    (s : SessionData) (now : Nat) (text : String) (t : TokenJson) (a : String)
    (hfind : findSession store sid = some s)
    (hexp : ¬ now > s.expires_at)
    (ha : t.access_token = some a) :
    api_poll_token store sid now (.response 200 text (some t))
      = (.tokenResponse a t.refresh_token t.id_token t.expires_in,
          delSession store sid, true) := by
  have he : t.isEmpty = false := by
    simp [TokenJson.isEmpty, ha]
  simp [api_poll_token, hfind, hexp, poll_for_token, he, ha]

/-- Claim C3 witness: a concrete 200 response with access_token tok. -/
theorem C3_success_token_passthrough_witness :
    api_poll_token [("s", ⟨"cid", "dev", 5, 100⟩)] "s" 50
        (.response 200 "t" (some ⟨none, some "tok", none, none, none, 0⟩))
      = (.tokenResponse "tok" none none none,
          delSession [("s", ⟨"cid", "dev", 5, 100⟩)] "s", true) :=
  C3_success_token_passthrough [("s", ⟨"cid", "dev", 5, 100⟩)] "s"
    ⟨"cid", "dev", 5, 100⟩ 50 "t" ⟨none, some "tok", none, none, none, 0⟩ "tok"
    (by decide) (by decide) (by decide)

/-- Claim C4: for every non-expired session, an HTTP 400 response with
error authorization_pending makes the handler report pending and write
nothing: the store is returned unchanged, so the session stays present
with identical expires_at and interval. -/
theorem C4_pending_leaves_store (store : Store) (sid : String)
    (s : SessionData) (now : Nat) (text : String) (t : TokenJson)
    (hfind : findSession store sid = some s)
    (hexp : ¬ now > s.expires_at)
    (herr : t.error = some "authorization_pending") :
    api_poll_token store sid now (.response 400 text (some t))
      = (.pending, store, true) := by
  simp [api_poll_token, hfind, hexp, poll_for_token, herr]

/-- Claim C4 witness: a concrete authorization_pending poll. -/
theorem C4_pending_leaves_store_witness :
    api_poll_token [("s", ⟨"cid", "dev", 5, 100⟩)] "s" 50
        (.response 400 "t" (some ⟨some "authorization_pending", none, none, none, none, 0⟩))
      = (.pending, [("s", ⟨"cid", "dev", 5, 100⟩)], true) :=
  C4_pending_leaves_store [("s", ⟨"cid", "dev", 5, 100⟩)] "s"
    ⟨"cid", "dev", 5, 100⟩ 50 "t"
    ⟨some "authorization_pending", none, none, none, none, 0⟩
    (by decide) (by decide) (by decide)

/-- Claim C5: for every session id not present in the store, the poll
handler answers with the invalid-session 404, contacts no provider, and
leaves the store unchanged. -/
theorem C5_unknown_session (store : Store) (sid : String) (now : Nat)
    (http : TokenHttp)
    (hfind : findSession store sid = none) :
    api_poll_token store sid now http = (.invalidSession, store, false) := by
  simp [api_poll_token, hfind]

/-- Claim C5 witness: the empty store. -/
theorem C5_unknown_session_witness :
    api_poll_token [] "s" 0 .transportFailure = (.invalidSession, [], false) :=
  C5_unknown_session [] "s" 0 .transportFailure (by decide)

/-- Claim C6, counterexample: `resp.raise_for_status()` raises only for
statuses 400-599, so a response with the non-2xx status 304 and a
parseable body does NOT fail with a provider error — `get_device_code`
returns the parsed payload — refuting the claimed
error-iff-not-2xx equivalence. -/
theorem C6_non2xx_counterexample :
    get_device_code (.response 304 "t" (some ⟨"d", "u", "v", "m", none, none⟩))
      = .ok ⟨"d", "u", "v", "m", none, none⟩
    ∧ ¬ (200 ≤ 304 ∧ 304 < 300) := by
  exact ⟨rfl, by decide⟩

/-- Claim C6 as amended: `get_device_code` fails with the provider
error carrying the raw status and body text if and only if the HTTP
status is in 400-599; in particular for every 2xx response whose body
parses it returns the parsed device-code payload. -/
theorem C6_provider_error_iff (st : Nat) (text : String)
    (body : Option DeviceJson) (d : DeviceJson) :
    (get_device_code (.response st text body) = .error (.httpError st text)
        ↔ 400 ≤ st ∧ st < 600)
    ∧ (200 ≤ st → st < 300 →
        get_device_code (.response st text (some d)) = .ok d) := by
  refine ⟨⟨?_, ?_⟩, ?_⟩
  · intro h
    by_contra hn
    cases body with
    | none => simp [get_device_code, hn] at h
    | some d2 => simp [get_device_code, hn] at h
  · intro hrange
    simp [get_device_code, hrange]
  · intro h1 h2
    have hn : ¬ (400 ≤ st ∧ st < 600) := by omega
    simp [get_device_code, hn]

/-- Claim C6 witness: a 201 response returns its parsed payload. -/
theorem C6_provider_error_iff_witness :
    get_device_code (.response 201 "x" (some ⟨"d", "u", "v", "m", none, none⟩))
      = .ok ⟨"d", "u", "v", "m", none, none⟩ :=
  (C6_provider_error_iff 201 "x" (some ⟨"d", "u", "v", "m", none, none⟩)
    ⟨"d", "u", "v", "m", none, none⟩).2 (by decide) (by decide)

/-- Claim C7: for every store, session id, time and 400 response body, a
body whose error field says slow_down is classified exactly like one
whose error field says authorization_pending — the single redemption
attempt returns the still-waiting marker in both cases, and the poll
handler behaves identically on both (same pending answer, same
untouched store and interval, no distinct backoff). -/
theorem C7_slow_down_identical (store : Store) (sid : String) (now : Nat)
    (text : String) (atk rtk idk : Option String) (ei : Option Nat) (n : Nat) :
    poll_for_token (.response 400 text (some ⟨some "slow_down", atk, rtk, idk, ei, n⟩))
        = .stillWaiting
    ∧ poll_for_token (.response 400 text (some ⟨some "authorization_pending", atk, rtk, idk, ei, n⟩))
        = .stillWaiting
    ∧ api_poll_token store sid now
          (.response 400 text (some ⟨some "slow_down", atk, rtk, idk, ei, n⟩))
        = api_poll_token store sid now
          (.response 400 text (some ⟨some "authorization_pending", atk, rtk, idk, ei, n⟩)) := by
  have h1 :
      poll_for_token (.response 400 text (some ⟨some "slow_down", atk, rtk, idk, ei, n⟩))
        = .stillWaiting := by
    simp [poll_for_token]
  have h2 :
      poll_for_token (.response 400 text (some ⟨some "authorization_pending", atk, rtk, idk, ei, n⟩))
        = .stillWaiting := by
    simp [poll_for_token]
  exact ⟨h1, h2, api_poll_token_congr store sid now _ _ (h1.trans h2.symm)⟩

/-- Claim C9: for every non-expired session, when the redemption attempt
raises any exception — among them the transport-level failure and a 400
response whose body does not parse as JSON, shown below — the poll
handler deletes the session from the store and answers with the server
error, so one transient failure ends the flow. -/
theorem C9_exception_deletes_session (store : Store) (sid : String)
    (s : SessionData) (now : Nat) (http : TokenHttp) (e : PollExn)
    (text : String)
    (hfind : findSession store sid = some s)
    (hexp : ¬ now > s.expires_at)
    (hp : poll_for_token http = .exn e) :
    api_poll_token store sid now http = (.serverError, delSession store sid, true)
    ∧ poll_for_token .transportFailure = .exn .transport
    ∧ poll_for_token (.response 400 text none) = .exn .jsonParse := by
  refine ⟨?_, rfl, by simp [poll_for_token]⟩
  simp [api_poll_token, hfind, hexp, hp]

/-- Claim C9 witness: a transport failure on a live session. -/
theorem C9_exception_deletes_session_witness :
    api_poll_token [("s", ⟨"cid", "dev", 5, 100⟩)] "s" 50 .transportFailure
        = (.serverError, delSession [("s", ⟨"cid", "dev", 5, 100⟩)] "s", true)
    ∧ poll_for_token .transportFailure = .exn .transport
    ∧ poll_for_token (.response 400 "t" none) = .exn .jsonParse :=
  C9_exception_deletes_session [("s", ⟨"cid", "dev", 5, 100⟩)] "s"
    ⟨"cid", "dev", 5, 100⟩ 50 .transportFailure .transport "t"
    (by decide) (by decide) (by decide)

/-- Claim C10: for every start-flow request whose client_id is absent or
the empty string, the start handler answers with the 400
client-id-required error, contacts no provider, and creates no session:
the store is unchanged. -/
theorem C10_missing_client_id (req : StartRequest) (store : Store)
    (now : Nat) (uuid : String) (http : DeviceHttp)
    (h : req.client_id = none ∨ req.client_id = some "") :
    api_device_code req store now uuid http = (.clientIdRequired, store, false) := by
  have hf : clientIdFalsy req.client_id = true := by
    rcases h with h | h <;> simp [clientIdFalsy, h]
  simp [api_device_code, hf]

/-- Claim C10 witness: a request without a client_id key. -/
theorem C10_missing_client_id_witness :
    api_device_code ⟨none, none⟩ [] 0 "u" .transportFailure
      = (.clientIdRequired, [], false) :=
  C10_missing_client_id ⟨none, none⟩ [] 0 "u" .transportFailure (Or.inl rfl)

/-- Claim C8, counterexample to atomicity: each store mutation is the
unlocked whole-file sequence load_sessions, dict update, save_sessions,
so in the legal interleaving load1, load2, save1, save2 of two creates
on DIFFERENT keys the second save overwrites the first: key a is lost
from the final file even though the two mutations touch different
keys. -/
theorem C8_lost_update_counterexample :
    [FileEvent.load1, FileEvent.load2, FileEvent.save1, FileEvent.save2]
        ∈ mutationSchedules
    ∧ runSchedule (fun st => addSession st "a" ⟨"c1", "d1", 5, 100⟩)
        (fun st => addSession st "b" ⟨"c2", "d2", 5, 100⟩) ([] : Store)
        [FileEvent.load1, FileEvent.load2, FileEvent.save1, FileEvent.save2]
      = [("b", ⟨"c2", "d2", 5, 100⟩)]
    ∧ findSession [("b", ⟨"c2", "d2", 5, 100⟩)] "a" = none := by
  refine ⟨?_, rfl, rfl⟩
  rw [mutationSchedules_eq]
  decide

/-- Claim C8 as amended: store mutations are unlocked whole-file
read-modify-write and are NOT atomic — two concurrent mutations can lose
one update even on different keys (see the counterexample) — but the
part of the claim about double deletion holds: for two concurrent
deletions of the same key, every interleaving of the two
load-then-save sequences leaves the file exactly the store with that
key removed, so the store is never corrupted. -/
theorem C8_double_delete_safe (sched : List FileEvent)
    (hmem : sched ∈ mutationSchedules) (store : Store) (k : String) :
    runSchedule (fun st => delSession st k) (fun st => delSession st k)
        store sched
      = delSession store k := by
  rw [mutationSchedules_eq] at hmem
  fin_cases hmem <;> simp [runSchedule, stepEvent, delSession_idem]

/-- Claim C8 witness: the fully sequential schedule of two deletions of
the same key. -/
theorem C8_double_delete_safe_witness :
    runSchedule (fun st => delSession st "a") (fun st => delSession st "a")
        [("a", ⟨"cid", "dev", 5, 100⟩)]
        [FileEvent.load1, FileEvent.save1, FileEvent.load2, FileEvent.save2]
      = delSession [("a", ⟨"cid", "dev", 5, 100⟩)] "a" :=
  C8_double_delete_safe
    [FileEvent.load1, FileEvent.save1, FileEvent.load2, FileEvent.save2]
    (by rw [mutationSchedules_eq]; decide) [("a", ⟨"cid", "dev", 5, 100⟩)] "a"

end DeviceFlow
